import Mathlib

/-
  Verification development for the netlify-computer-use-api repository.

  Shallow embedding of the agent execution loop, its two actuation backends
  (Docker container backend `ComputerUse` and browser-process backend
  `PuppeteerComputerUse`), the container lifecycle manager `DockerManager`,
  and the request handler option merging.

  External effects (Docker API calls, browser automation calls, the remote
  agent service, wall-clock time) are modelled as explicit environment
  records whose fields give the outcome of each effectful primitive;
  thrown JavaScript exceptions are modelled as `Except.error` carrying the
  error message string.
-/

set_option maxRecDepth 4096

namespace CUA

/-! ## Data model -/

/-- Display configuration: `this.display = { width: 1280, height: 720 }`. -/
structure Display where
  width : Nat
  height : Nat
deriving Repr, DecidableEq

def display : Display := { width := 1280, height := 720 }

/-- `this.maxIterations = 20` (same constant in both backends). -/
def maxIterations : Nat := 20

/-- Structured input of a tool invocation, mirroring the fields the two
`handleComputerAction` implementations and `handleBashAction` read from
the agent supplied `input` object.  The source reads `coordinate[0]` and
`coordinate[1]` from a two element array; we keep the array as a list
(out of range JS access yields `undefined`, which we do not model; every
claim concerns inputs where the used fields are present). -/
structure ToolInput where
  action : String := ""
  coordinate : List Int := []
  text : String := ""
  key : String := ""
  direction : String := ""
  clicks : Option Int := none
  command : String := ""
deriving Repr, DecidableEq

/-- A `tool_use` content block from the remote agent: name, opaque
invocation identifier, structured input. -/
structure ToolUse where
  id : String
  name : String
  input : ToolInput
deriving Repr, DecidableEq

/-- A content block of an agent response: narrative text or a tool
invocation. -/
inductive Block where
  | text (s : String)
  | toolUse (tu : ToolUse)
deriving Repr, DecidableEq

/-- The first tool use block of a response, if any; embeds
`response.content.find(block => block.type === ...)` with type tool_use. -/
def findToolUse : List Block → Option ToolUse
  | [] => none
  | Block.text _ :: rest => findToolUse rest
  | Block.toolUse tu :: _ => some tu

/-- A turn of the persisted conversation (`messages` array).  The loop
persists: the initial user instruction (a plain string), the assistant
turn holding the full response content, and a user turn holding a single
`tool_result` item `{ tool_use_id, content }`. -/
inductive Msg where
  | userText (s : String)
  | assistantBlocks (content : List Block)
  | toolResult (tool_use_id : String) (content : String)
deriving Repr, DecidableEq

/-- A screenshot trail record: `{ step, timestamp, image_base64 }`. -/
structure Screenshot where
  step : String
  timestamp : String
  image_base64 : String
deriving Repr, DecidableEq

abbrev Trail := List Screenshot

/-- The options both backend constructors read:
`takeScreenshots` and `websiteUrl`. -/
structure ExecOpts where
  takeScreenshots : Bool
  websiteUrl : String
deriving Repr, DecidableEq

/-- Run result `{ iterations, completed: true }` together with the
observable state accumulated by the run: the persisted conversation and
the screenshot trail. -/
structure RunOut where
  iterations : Nat
  completed : Bool
  messages : List Msg
  trail : Trail
deriving Repr, DecidableEq

/-! ## Docker backend environment

`DockerEnv` abstracts the two `DockerManager` primitives the `ComputerUse`
adapter calls (`execute` and `getFile`), plus the clock values used for
screenshot file names and trail timestamps.  `exec c = .error m` models
`dockerManager.execute(c)` rejecting with message `m`. -/

structure DockerEnv where
  exec : String → Except String String
  getFile : String → Except String String
  now : Nat
  nowIso : String

namespace ComputerUse

/-- `/tmp/screenshot_${timestamp}.png`. -/
def screenshotFile (now : Nat) : String :=
  "/tmp/screenshot_" ++ toString now ++ ".png"

/-- `takeScreenshotForClaude`: scrot into a temp file, fetch it, delete
it; any failure is rethrown as `Failed to take screenshot: ...`. -/
def takeScreenshotForClaude (env : DockerEnv) : Except String String :=
  match env.exec ("export DISPLAY=:99 && scrot " ++ screenshotFile env.now) with
  | Except.error e => Except.error ("Failed to take screenshot: " ++ e)
  | Except.ok _ =>
    match env.getFile (screenshotFile env.now) with
    | Except.error e => Except.error ("Failed to take screenshot: " ++ e)
    | Except.ok data =>
      match env.exec ("rm -f " ++ screenshotFile env.now) with
      | Except.error e => Except.error ("Failed to take screenshot: " ++ e)
      | Except.ok _ => Except.ok data

/-- `captureScreenshot(step)`: no-op when screenshots are disabled;
otherwise appends `{ step, timestamp, image_base64 }` to the trail, and a
capture failure is caught and logged (nothing appended, nothing thrown). -/
def captureScreenshot (env : DockerEnv) (opts : ExecOpts) (step : String)
    (trail : Trail) : Trail :=
  if opts.takeScreenshots = false then trail
  else
    match takeScreenshotForClaude env with
    | Except.ok data =>
        trail ++ [{ step := step, timestamp := env.nowIso,
                    image_base64 := "data:image/png;base64," ++ data }]
    | Except.error _ => trail

/-- The xdotool click command built from the raw agent coordinates. -/
def clickCmd (x y : Int) : String :=
  "export DISPLAY=:99 && xdotool mousemove " ++ toString x ++ " " ++ toString y
    ++ " click 1"

/-- Single quote character, for the shell escaping in the `type` action. -/
def sq : String := String.singleton (Char.ofNat 39)

/-- The replacement the source uses for each single quote in typed text. -/
def sqEsc : String := sq ++ String.singleton (Char.ofNat 34) ++ sq
  ++ String.singleton (Char.ofNat 34) ++ sq

/-- `text.replace(/'/g, ...)` shell escaping of typed text. -/
def escapeTyped (text : String) : String := text.replace sq sqEsc

def coord0 (l : List Int) : Int := l.getD 0 0
def coord1 (l : List Int) : Int := l.getD 1 0

/-- `handleComputerAction(input)` for the Docker backend.  Each actuation
runs a shell command in the container; a rejected command propagates as a
thrown error (`Except.error`).  The fixed settle delays (1000ms / 500ms)
are pure waits with no observable effect in this embedding. -/
def handleComputerAction (env : DockerEnv) (opts : ExecOpts)
    (input : ToolInput) (trail : Trail) : Except String String × Trail :=
  if input.action = "screenshot" then
    match takeScreenshotForClaude env with
    | Except.error e => (Except.error e, trail)
    | Except.ok _ =>
        (Except.ok "Screenshot taken",
         captureScreenshot env opts "Screenshot taken" trail)
  else if input.action = "click" then
    let x := coord0 input.coordinate
    let y := coord1 input.coordinate
    match env.exec (clickCmd x y) with
    | Except.error e => (Except.error e, trail)
    | Except.ok _ =>
        (Except.ok ("Clicked at (" ++ toString x ++ ", " ++ toString y ++ ")"),
         trail)
  else if input.action = "type" then
    match env.exec ("export DISPLAY=:99 && xdotool type " ++ sq
        ++ escapeTyped input.text ++ sq) with
    | Except.error e => (Except.error e, trail)
    | Except.ok _ => (Except.ok ("Typed: " ++ input.text), trail)
  else if input.action = "key" then
    match env.exec ("export DISPLAY=:99 && xdotool key " ++ input.key) with
    | Except.error e => (Except.error e, trail)
    | Except.ok _ => (Except.ok ("Pressed key: " ++ input.key), trail)
  else if input.action = "scroll" then
    let x := coord0 input.coordinate
    let y := coord1 input.coordinate
    let scrollDirection := if input.direction = "down" then "5" else "4"
    match env.exec ("export DISPLAY=:99 && xdotool mousemove " ++ toString x
        ++ " " ++ toString y ++ " click " ++ scrollDirection) with
    | Except.error e => (Except.error e, trail)
    | Except.ok _ => (Except.ok ("Scrolled " ++ input.direction), trail)
  else
    (Except.error ("Unknown computer action: " ++ input.action), trail)

/-- `handleBashAction`: runs the command with the display exported; has
its own try/catch, so it always returns text and never throws. An empty
output (falsy in JS) is replaced by a fixed success message. -/
def handleBashAction (env : DockerEnv) (input : ToolInput) :
    Except String String :=
  match env.exec ("export DISPLAY=:99 && " ++ input.command) with
  | Except.ok r =>
      Except.ok (if r = "" then "Command executed successfully" else r)
  | Except.error e => Except.ok ("Error executing command: " ++ e)

/-- The body of the `try` in `executeComputerUseTool`: dispatch on the
tool name; an unknown name throws. -/
def toolDispatch (env : DockerEnv) (opts : ExecOpts) (tu : ToolUse)
    (trail : Trail) : Except String String × Trail :=
  if tu.name = "computer" then handleComputerAction env opts tu.input trail
  else if tu.name = "bash" then (handleBashAction env tu.input, trail)
  else if tu.name = "text_editor" then
    (Except.ok "Text editor not available in web testing context", trail)
  else (Except.error ("Unknown tool: " ++ tu.name), trail)

/-- `executeComputerUseTool(toolUse)`: the catch converts any thrown
error into the textual result `Error: ...`; the function is total — it
never throws to its caller (the loop). -/
def executeComputerUseTool (env : DockerEnv) (opts : ExecOpts) (tu : ToolUse)
    (trail : Trail) : String × Trail :=
  match toolDispatch env opts tu trail with
  | (Except.ok s, tr) => (s, tr)
  | (Except.error e, tr) => ("Error: " ++ e, tr)

end ComputerUse

/-! ## Puppeteer backend environment

`PuppeteerEnv` abstracts the browser-process primitives the
`PuppeteerComputerUse` adapter calls (launch, goto, `page.screenshot`,
`page.mouse.click`, `page.keyboard.type`, `page.keyboard.press`,
`page.mouse.move`, `page.mouse.wheel`), each recorded as its outcome, plus
the browser and page handles (`this.browser`, `this.page`) during the run
and the timestamp used for trail records. -/

structure PuppeteerEnv where
  launchOk : Bool
  launchErr : String
  gotoOk : Bool
  gotoErr : String
  browser : Option Unit
  page : Option Unit
  shot : Except String String
  clickAt : Int → Int → Except String Unit
  typeText : String → Except String Unit
  press : String → Except String Unit
  moveTo : Int → Int → Except String Unit
  wheel : Int → Except String Unit
  nowIso : String

namespace PuppeteerComputerUse

/-- `takeScreenshotForClaude`: `page.screenshot({encoding:base64})`;
failure rethrown as `Failed to take screenshot: ...`. -/
def takeScreenshotForClaude (env : PuppeteerEnv) : Except String String :=
  match env.shot with
  | Except.ok d => Except.ok d
  | Except.error e => Except.error ("Failed to take screenshot: " ++ e)

/-- `captureScreenshot(step)`: early return when screenshots are disabled
or the page/browser handle is gone; a capture failure is caught and
logged (nothing appended, nothing thrown). -/
def captureScreenshot (env : PuppeteerEnv) (opts : ExecOpts) (step : String)
    (trail : Trail) : Trail :=
  if opts.takeScreenshots = false ∨ env.page = none ∨ env.browser = none then
    trail
  else
    match takeScreenshotForClaude env with
    | Except.ok data =>
        trail ++ [{ step := step, timestamp := env.nowIso,
                    image_base64 := "data:image/png;base64," ++ data }]
    | Except.error _ => trail

/-- The key translation table from the X-keysym vocabulary sent by the
agent to the Puppeteer key vocabulary; unmapped keys pass through. -/
def keyMap (k : String) : String :=
  if k = "Return" then "Enter"
  else if k = "Tab" then "Tab"
  else if k = "Escape" then "Escape"
  else if k = "BackSpace" then "Backspace"
  else if k = "Delete" then "Delete"
  else if k = "Up" then "ArrowUp"
  else if k = "Down" then "ArrowDown"
  else if k = "Left" then "ArrowLeft"
  else if k = "Right" then "ArrowRight"
  else k

/-- `handleComputerAction(input)` for the Puppeteer backend.  Each
actuation is a native browser-control call; a rejected call propagates as
a thrown error (`Except.error`).  Settle delays are pure waits. -/
def handleComputerAction (env : PuppeteerEnv) (opts : ExecOpts)
    (input : ToolInput) (trail : Trail) : Except String String × Trail :=
  if input.action = "screenshot" then
    match takeScreenshotForClaude env with
    | Except.error e => (Except.error e, trail)
    | Except.ok _ =>
        (Except.ok "Screenshot taken",
         captureScreenshot env opts "Screenshot taken" trail)
  else if input.action = "click" then
    let x := ComputerUse.coord0 input.coordinate
    let y := ComputerUse.coord1 input.coordinate
    match env.clickAt x y with
    | Except.error e => (Except.error e, trail)
    | Except.ok _ =>
        (Except.ok ("Clicked at (" ++ toString x ++ ", " ++ toString y ++ ")"),
         trail)
  else if input.action = "type" then
    match env.typeText input.text with
    | Except.error e => (Except.error e, trail)
    | Except.ok _ => (Except.ok ("Typed: " ++ input.text), trail)
  else if input.action = "key" then
    match env.press (keyMap input.key) with
    | Except.error e => (Except.error e, trail)
    | Except.ok _ => (Except.ok ("Pressed key: " ++ input.key), trail)
  else if input.action = "scroll" then
    let x := ComputerUse.coord0 input.coordinate
    let y := ComputerUse.coord1 input.coordinate
    let clicks := input.clicks.getD 3
    let delta : Int := if input.direction = "down" then 120 else -120
    match env.moveTo x y with
    | Except.error e => (Except.error e, trail)
    | Except.ok _ =>
      match env.wheel (delta * clicks) with
      | Except.error e => (Except.error e, trail)
      | Except.ok _ => (Except.ok ("Scrolled " ++ input.direction), trail)
  else
    (Except.error ("Unknown computer action: " ++ input.action), trail)

/-- The body of the `try` in the Puppeteer `executeComputerUseTool`: only
the computer tool is recognised. -/
def toolDispatch (env : PuppeteerEnv) (opts : ExecOpts) (tu : ToolUse)
    (trail : Trail) : Except String String × Trail :=
  if tu.name = "computer" then handleComputerAction env opts tu.input trail
  else (Except.error ("Unknown tool: " ++ tu.name), trail)

/-- `executeComputerUseTool(toolUse)` for the Puppeteer backend: the
catch converts any thrown error into the textual result `Error: ...`. -/
def executeComputerUseTool (env : PuppeteerEnv) (opts : ExecOpts)
    (tu : ToolUse) (trail : Trail) : String × Trail :=
  match toolDispatch env opts tu trail with
  | (Except.ok s, tr) => (s, tr)
  | (Except.error e, tr) => ("Error: " ++ e, tr)

end PuppeteerComputerUse

/-! ## The agent execution loop

The two `runClaudeWithComputerUse` implementations are textually identical
loops, differing only in the screenshot primitive, the tool executor and
the tool vocabulary they pass to the agent.  `loopGo` embeds that common
loop body; each backend instantiates it below with its own primitives.

The remote agent is modelled as `agent : Nat → List Block`, the ordered
content blocks of its response at each (1-based) iteration.  `fuel` is a
structural recursion bound only: `runClaude` starts the loop with
`fuel = maxIterations` and iteration `0`, and each pass increments the
iteration while consuming one fuel, so fuel reaches `0` exactly when
`iteration = maxIterations` — the same exit the `while` condition takes. -/

def loopGo (shot : Nat → Except String String)
    (toolExec : ToolUse → Trail → String × Trail)
    (agent : Nat → List Block) :
    Nat → Nat → List Msg → Trail → Except String (Nat × List Msg × Trail)
  | 0, iteration, messages, trail => Except.ok (iteration, messages, trail)
  | fuel + 1, iteration, messages, trail =>
    if iteration < maxIterations then
      -- iteration++; fresh screenshot; a failure is rethrown by the catch
      match shot (iteration + 1) with
      | Except.error e => Except.error e
      | Except.ok _ =>
        -- the remote agent is called with the conversation so far plus a
        -- transient assistant nudge and the screenshot turn (messages.concat
        -- does not mutate the persisted array)
        match findToolUse (agent (iteration + 1)) with
        | some tu =>
          -- dispatch the tool, then persist the agent turn and the paired
          -- tool_result turn; the inter-iteration delay is a pure wait
          let r := toolExec tu trail
          loopGo shot toolExec agent fuel (iteration + 1)
            (messages ++ [Msg.assistantBlocks (agent (iteration + 1)),
                          Msg.toolResult tu.id r.1]) r.2
        | none => Except.ok (iteration + 1, messages, trail)
    else Except.ok (iteration, messages, trail)

/-- The loop wrapper: run the while loop, then
`if (iteration >= maxIterations) throw Maximum iterations reached`,
otherwise return `{ iterations, completed: true }`. -/
def runClaude (shot : Nat → Except String String)
    (toolExec : ToolUse → Trail → String × Trail)
    (agent : Nat → List Block) (messages0 : List Msg) (trail0 : Trail) :
    Except String RunOut :=
  match loopGo shot toolExec agent maxIterations 0 messages0 trail0 with
  | Except.error e => Except.error e
  | Except.ok (iteration, messages, trail) =>
    if maxIterations ≤ iteration then
      Except.error ("Maximum iterations (" ++ toString maxIterations
        ++ ") reached")
    else
      Except.ok { iterations := iteration, completed := true,
                  messages := messages, trail := trail }

namespace ComputerUse

/-- The initial user instruction turn of the Docker backend loop. -/
def instructionPrompt (websiteUrl instruction : String) : String :=
  "You are controlling a web browser to test features on " ++ websiteUrl
    ++ ". \n        \nThe browser is already open and displaying the website. Please execute this instruction:\n\n\""
    ++ instruction
    ++ "\"\n\nGuidelines:\n- Take screenshots frequently to show progress\n- Be thorough but efficient \n- If you encounter errors, try alternative approaches\n- Explain what you are doing at each step\n- Focus only on "
    ++ websiteUrl
    ++ " - do not navigate away\n- The display resolution is 1280x720\n\nCurrent browser status: Open and displaying "
    ++ websiteUrl

/-- `runClaudeWithComputerUse(instruction)` for the Docker backend. -/
def runClaudeWithComputerUse (env : DockerEnv) (opts : ExecOpts)
    (agent : Nat → List Block) (instruction : String) (trail0 : Trail) :
    Except String RunOut :=
  runClaude (fun _ => takeScreenshotForClaude env)
    (executeComputerUseTool env opts) agent
    [Msg.userText (instructionPrompt opts.websiteUrl instruction)] trail0

/-- The navigation command `navigateToWebsite` joins with ampersands. -/
def navCommand (url : String) : String :=
  String.intercalate " && "
    ["export DISPLAY=:99",
     "Xvfb :99 -screen 0 1280x720x24 &",
     "sleep 2",
     "google-chrome --no-sandbox --disable-dev-shm-usage --remote-debugging-port=9222 --start-maximized \"https://"
       ++ url ++ "\" &",
     "sleep 5"]

/-- `execute(instruction)` for the Docker backend: initial screenshot
(when enabled), navigate (capturing a trail entry after navigation), then
the agent loop; navigation failure is rethrown as
`Failed to navigate to website: ...`. -/
def execute (env : DockerEnv) (opts : ExecOpts) (agent : Nat → List Block)
    (instruction : String) : Except String RunOut :=
  let trail0 := captureScreenshot env opts "Initial state" []
  match env.exec (navCommand opts.websiteUrl) with
  | Except.error e => Except.error ("Failed to navigate to website: " ++ e)
  | Except.ok _ =>
    let trail1 :=
      captureScreenshot env opts ("Navigated to " ++ opts.websiteUrl) trail0
    runClaudeWithComputerUse env opts agent instruction trail1

end ComputerUse

namespace PuppeteerComputerUse

/-- The initial user instruction turn of the Puppeteer backend loop. -/
def instructionPrompt (websiteUrl instruction : String) : String :=
  "You are controlling a web browser to test features on " ++ websiteUrl
    ++ ". \n        \nThe browser is already open and displaying the website. Please execute this instruction:\n\n\""
    ++ instruction
    ++ "\"\n\nGuidelines:\n- Take screenshots frequently to show progress\n- Be thorough but efficient \n- If you encounter errors, try alternative approaches\n- Explain what you are doing at each step\n- Focus only on "
    ++ websiteUrl
    ++ " - do not navigate away\n- The display resolution is 1280x720\n\nAvailable actions: screenshot, click, type, key, scroll\n\nCurrent browser status: Open and displaying "
    ++ websiteUrl

/-- `runClaudeWithComputerUse(instruction)` for the Puppeteer backend. -/
def runClaudeWithComputerUse (env : PuppeteerEnv) (opts : ExecOpts)
    (agent : Nat → List Block) (instruction : String) (trail0 : Trail) :
    Except String RunOut :=
  runClaude (fun _ => takeScreenshotForClaude env)
    (executeComputerUseTool env opts) agent
    [Msg.userText (instructionPrompt opts.websiteUrl instruction)] trail0

/-- `execute(instruction)` for the Puppeteer backend: launch the browser,
navigate (capturing a trail entry after navigation), capture the initial
state entry, then the agent loop.  Launch failure is rethrown as
`Failed to initialize... browser`, navigation failure as
`Failed to navigate to website: ...`; the `finally` teardown is modelled
separately (`executeTeardown`). -/
def execute (env : PuppeteerEnv) (opts : ExecOpts) (agent : Nat → List Block)
    (instruction : String) : Except String RunOut :=
  if env.launchOk = false then
    Except.error ("Failed to initialize browser: " ++ env.launchErr)
  else if env.gotoOk = false then
    Except.error ("Failed to navigate to website: " ++ env.gotoErr)
  else
    let trail0 :=
      captureScreenshot env opts ("Navigated to " ++ opts.websiteUrl) []
    let trail1 := captureScreenshot env opts "Initial state" trail0
    runClaudeWithComputerUse env opts agent instruction trail1

end PuppeteerComputerUse

/-! ## Container lifecycle manager (`DockerManager`) -/

namespace DockerManager

/-- The hard per-call timeout of `execute`: `setTimeout(..., 30000)`. -/
def execTimeoutMs : Nat := 30000

/-- One chunk of the multiplexed exec output stream: its leading framing
byte (`chunk[0]`) and its text (`chunk.toString()`). -/
abbrev Chunk := Nat × String

/-- The stream data handler, accumulator form: framing byte 1 appends the
chunk text minus the 8 byte header to stdout, byte 2 appends it to
stderr, anything else appends the raw text to stdout. -/
def demuxGo : List Chunk → String → String → String × String
  | [], out, err => (out, err)
  | (tag, d) :: rest, out, err =>
    if tag = 1 then demuxGo rest (out ++ d.drop 8) err
    else if tag = 2 then demuxGo rest out (err ++ d.drop 8)
    else demuxGo rest (out ++ d) err

def demux (chunks : List Chunk) : String × String := demuxGo chunks "" ""

/-- Outcome of one in-container exec as observed by
`DockerManager.execute`: whether the container handle is set, whether
`container.exec`/`exec.start` themselves succeeded, how long the command
took, its output chunks, the inspect outcome and the exit code. -/
structure ExecEnv where
  containerReady : Bool
  execStartOk : Bool
  execStartErr : String
  durationMs : Nat
  chunks : List Chunk
  inspectOk : Bool
  inspectErr : String
  exitCode : Int

/-- `execute(command)`: throws when no container; wraps `exec`/`start`
failures; rejects with the timeout error when the stream has not ended
within 30s; rejects `inspect` failures as-is; rejects non-zero exit codes
with the captured error text (stderr, or stdout when stderr is empty);
resolves with the trimmed demultiplexed stdout otherwise. -/
def execute (env : ExecEnv) (command : String) : Except String String :=
  if env.containerReady = false then Except.error "Container not initialized"
  else if env.execStartOk = false then
    Except.error ("Failed to execute command \"" ++ command ++ "\": "
      ++ env.execStartErr)
  else if execTimeoutMs ≤ env.durationMs then
    Except.error "Command execution timeout"
  else if env.inspectOk = false then Except.error env.inspectErr
  else
    let o := demux env.chunks
    if env.exitCode ≠ 0 then
      let errText := if o.2 = "" then o.1 else o.2
      Except.error ("Command failed with exit code " ++ toString env.exitCode
        ++ ": " ++ errText)
    else Except.ok o.1.trim

/-- The provisioning sequence of `setupContainerEnvironment`, verbatim
and in order; the last entry is the display readiness check. -/
def setupCommands : List String :=
  ["apt-get update",
   "apt-get install -y wget curl gnupg2 software-properties-common apt-transport-https ca-certificates",
   "apt-get install -y xvfb x11vnc xdotool scrot",
   "apt-get install -y fonts-liberation libasound2 libatk-bridge2.0-0 libdrm2 libxkbcommon0 libxss1 libgtk-3-0 libxrandr2 libu2f-udev libvulkan1",
   "wget -q -O - https://dl-ssl.google.com/linux/linux_signing_key.pub | apt-key add -",
   "echo \"deb [arch=amd64] http://dl.google.com/linux/chrome/deb/ stable main\" >> /etc/apt/sources.list.d/google.list",
   "apt-get update",
   "apt-get install -y google-chrome-stable",
   "mkdir -p /workspace",
   "Xvfb :99 -screen 0 1280x720x24 > /dev/null 2>&1 &",
   "sleep 3",
   "export DISPLAY=:99 && xdpyinfo >/dev/null 2>&1"]

/-- The final display readiness check (last provisioning step). -/
def readinessCmd : String := "export DISPLAY=:99 && xdpyinfo >/dev/null 2>&1"

/-- The provisioning loop of `setupContainerEnvironment`: each command is
run inside its own try/catch — a failure is logged
(`Command may have failed but continuing`) and the sequence continues.
The result records each command with the success of its run. -/
def runSetupCommands (exec : String → Except String String) :
    List String → List (String × Bool)
  | [] => []
  | c :: rest =>
    match exec c with
    | Except.ok _ => (c, true) :: runSetupCommands exec rest
    | Except.error _ => (c, false) :: runSetupCommands exec rest

/-- Outcomes of the container provisioning primitives as observed by
`DockerManager.initialize`: image pull, `createContainer`,
`container.start`, and the in-container command runner used by the
provisioning loop. -/
structure InitEnv where
  pullOk : Bool
  createOk : Bool
  createErr : String
  startOk : Bool
  startErr : String
  exec : String → Except String String

/-- `DockerManager.initialize()`: the pull failure is caught and
tolerated; a `createContainer` or `start` failure is rethrown wrapped as
`Failed to initialize Docker container: ...`; then the provisioning loop
runs (never throwing, see `runSetupCommands`).  The successful result
exposes the per-step outcomes of the provisioning loop. -/
def initContainer (env : InitEnv) : Except String (List (String × Bool)) :=
  if env.createOk = false then
    Except.error ("Failed to initialize Docker container: " ++ env.createErr)
  else if env.startOk = false then
    Except.error ("Failed to initialize Docker container: " ++ env.startErr)
  else Except.ok (runSetupCommands env.exec setupCommands)

end DockerManager

/-! ## Teardown (cleanup on every exit path) -/

/-- An observable teardown event: entering a cleanup call, and each
underlying stop/remove/close attempt with its outcome. -/
inductive CleanupEv where
  | cleanupCall
  | stopAttempt (ok : Bool)
  | removeAttempt (ok : Bool)
  | closeAttempt (ok : Bool)
deriving Repr, DecidableEq, BEq

/-- `DockerManager.cleanup()`: early return when the handle is already
null; otherwise the stop and the remove are each wrapped in their own
try/catch (a stop failure does not prevent the remove attempt, a remove
failure is only logged), and the `finally` always nulls the handle.  The
outer catch is unreachable (everything inside the outer try is caught by
the inner handlers), so the call never throws. -/
def dockerCleanup (stopOk removeOk : Bool) (container : Option String) :
    Option String × List CleanupEv :=
  match container with
  | none => (none, [CleanupEv.cleanupCall])
  | some _ =>
      (none, [CleanupEv.cleanupCall, CleanupEv.stopAttempt stopOk,
              CleanupEv.removeAttempt removeOk])

/-- The browser and page handles of a `PuppeteerComputerUse` instance. -/
structure BrowserState where
  browser : Option Unit
  page : Option Unit
deriving Repr, DecidableEq

/-- `PuppeteerComputerUse.cleanup()`: no-op when the browser handle is
already null; otherwise `browser.close()` is awaited inside a try/catch —
on success the browser and page handles are nulled, on failure the error
is only logged and the handles are left as they were. -/
def puppeteerCleanup (closeOk : Bool) (st : BrowserState) :
    BrowserState × List CleanupEv :=
  match st.browser with
  | none => (st, [CleanupEv.cleanupCall])
  | some _ =>
    if closeOk then
      ({ browser := none, page := none },
       [CleanupEv.cleanupCall, CleanupEv.closeAttempt true])
    else (st, [CleanupEv.cleanupCall, CleanupEv.closeAttempt false])

/-- How a run leaves the handler: the body resolved (`Completed`), the
body rejected (`Failed`), or the handler `Promise.race` was lost to the
external timeout (the losing `runTest` promise still continues and its
`finally` still executes). -/
inductive RunExit where
  | completed
  | failed (msg : String)
  | timeoutRaceLost
deriving Repr, DecidableEq

/-- The `finally` block of `runTest` (Docker mode): on each exit path —
resolution, rejection, or loss of the external timeout race —
`dockerManager.cleanup()` is invoked exactly once. -/
def runTestTeardown (exit : RunExit) (stopOk removeOk : Bool)
    (container : Option String) : Option String × List CleanupEv :=
  match exit with
  | RunExit.completed => dockerCleanup stopOk removeOk container
  | RunExit.failed _ => dockerCleanup stopOk removeOk container
  | RunExit.timeoutRaceLost => dockerCleanup stopOk removeOk container

/-- The `finally` block of `PuppeteerComputerUse.execute`: on each exit
path `this.cleanup()` is invoked exactly once. -/
def executeTeardown (exit : RunExit) (closeOk : Bool) (st : BrowserState) :
    BrowserState × List CleanupEv :=
  match exit with
  | RunExit.completed => puppeteerCleanup closeOk st
  | RunExit.failed _ => puppeteerCleanup closeOk st
  | RunExit.timeoutRaceLost => puppeteerCleanup closeOk st

/-! ## Handler option merging and the run deadline -/

/-- `CONFIG.MAX_TEST_DURATION` default (seconds). -/
def MAX_TEST_DURATION : Nat := 300

/-- `CONFIG.WEBSITE_URL` default. -/
def WEBSITE_URL : String := "app.giftround.com"

/-- The caller supplied `options` object of a request: a field is `none`
when the caller did not supply it. -/
structure ReqOptions where
  timeout : Option Nat := none
  takeScreenshots : Option Bool := none
  websiteUrl : Option String := none
deriving Repr, DecidableEq

/-- The merged `testOptions` fields the run actually uses. -/
structure TestOptions where
  timeout : Nat
  takeScreenshots : Bool
  websiteUrl : String
deriving Repr, DecidableEq

/-- The `testOptions` object literal of the handler.  The first three
fields compute the clamped timeout (`Math.min(options.timeout ||
MAX_TEST_DURATION, MAX_TEST_DURATION)`, where a `0` timeout is falsy),
the screenshot default (`options.takeScreenshots !== false`) and the
configured site; the trailing `...options` spread then overrides every
field the caller supplied. -/
def mergeTestOptions (options : ReqOptions) : TestOptions :=
  let rawTimeout :=
    match options.timeout with
    | some t => if t = 0 then MAX_TEST_DURATION else t
    | none => MAX_TEST_DURATION
  let clamped := min rawTimeout MAX_TEST_DURATION
  { timeout := options.timeout.getD clamped,
    takeScreenshots :=
      options.takeScreenshots.getD (options.takeScreenshots != some false),
    websiteUrl := options.websiteUrl.getD WEBSITE_URL }

/-- The wall-clock deadline the handler arms in its `Promise.race`:
`setTimeout(..., testOptions.timeout * 1000)`. -/
def raceDeadlineMs (options : ReqOptions) : Nat :=
  (mergeTestOptions options).timeout * 1000

/-! ## Spec-side characterisation of the stream demultiplexer

Independent (non-accumulator) description of what the stream handler
produces, to compare against the embedded `demuxGo`. -/

namespace DockerManager

/-- The stdout text of a chunk list: header-stripped stdout frames and
raw untagged frames, in stream order. -/
def stdoutText : List Chunk → String
  | [] => ""
  | (tag, d) :: rest =>
    (if tag = 1 then d.drop 8 else if tag = 2 then "" else d)
      ++ stdoutText rest

/-- The stderr text of a chunk list: header-stripped stderr frames. -/
def stderrText : List Chunk → String
  | [] => ""
  | (tag, d) :: rest =>
    (if tag = 2 then d.drop 8 else "") ++ stderrText rest

end DockerManager

/-! ## Concrete fixtures used by counterexamples and witnesses -/

/-- A Docker environment in which every container primitive succeeds. -/
def okDockerEnv : DockerEnv :=
  { exec := fun _ => Except.ok "", getFile := fun _ => Except.ok "IMG",
    now := 0, nowIso := "T0" }

/-- A Docker environment whose command runner fails echoing the command,
making the exact command handed to actuation observable. -/
def echoDockerEnv : DockerEnv :=
  { exec := fun c => Except.error c, getFile := fun _ => Except.error "",
    now := 0, nowIso := "T0" }

/-- A Puppeteer environment in which every browser primitive succeeds. -/
def okPupEnv : PuppeteerEnv :=
  { launchOk := true, launchErr := "", gotoOk := true, gotoErr := "",
    browser := some (), page := some (), shot := Except.ok "IMG",
    clickAt := fun _ _ => Except.ok (), typeText := fun _ => Except.ok (),
    press := fun _ => Except.ok (), moveTo := fun _ _ => Except.ok (),
    wheel := fun _ => Except.ok (), nowIso := "T0" }

/-- A Puppeteer environment whose click primitive fails echoing its
coordinates, making the actuated coordinates observable. -/
def echoPupEnv : PuppeteerEnv :=
  { okPupEnv with
    clickAt := fun a b =>
      Except.error ("click(" ++ toString a ++ ", " ++ toString b ++ ")") }

/-- Default options: screenshots on, the configured target site. -/
def wopts : ExecOpts := { takeScreenshots := true, websiteUrl := WEBSITE_URL }

/-- Options with screenshot capture enabled for a given site. -/
def optsOn (url : String) : ExecOpts :=
  { takeScreenshots := true, websiteUrl := url }

/-- Options with screenshot capture disabled for a given site. -/
def optsOff (url : String) : ExecOpts :=
  { takeScreenshots := false, websiteUrl := url }

/-- A representative click tool invocation at the display centre. -/
def clickTu : ToolUse :=
  { id := "toolu_1", name := "computer",
    input := { action := "click", coordinate := [640, 360] } }

/-- An agent that keeps clicking for 19 iterations and declares
completion (no tool block) exactly at iteration 20, the cap. -/
def agentDoneAtCap : Nat → List Block := fun j =>
  if j < 20 then [Block.toolUse clickTu] else [Block.text "done"]

/-- An agent that always requests a tool, never signalling completion. -/
def agentNeverDone : Nat → List Block := fun _ => [Block.toolUse clickTu]

/-- An agent that clicks on iteration 1 and completes on iteration 2. -/
def agentClickThenDone : Nat → List Block := fun j =>
  if j = 1 then [Block.text "clicking", Block.toolUse clickTu]
  else [Block.text "done"]

/-- An agent that completes immediately (iteration 1, no tool block). -/
def agentImmediatelyDone : Nat → List Block := fun _ => [Block.text "done"]

/-- A provisioning environment in which container creation and start
succeed and every provisioning command succeeds except the final display
readiness check. -/
def badDisplayEnv : DockerManager.InitEnv :=
  { pullOk := true, createOk := true, createErr := "", startOk := true,
    startErr := "",
    exec := fun c =>
      if c = DockerManager.readinessCmd then Except.error "xdpyinfo failed"
      else Except.ok "" }

/-- A provisioning environment in which container creation fails. -/
def noCreateEnv : DockerManager.InitEnv :=
  { pullOk := true, createOk := false, createErr := "no docker daemon",
    startOk := true, startErr := "", exec := fun _ => Except.ok "" }

/-- An exec outcome: in time, exit code 0, stdout and stderr frames. -/
def execOkEnv : DockerManager.ExecEnv :=
  { containerReady := true, execStartOk := true, execStartErr := "",
    durationMs := 5,
    chunks := [(1, "HHHHHHHHhello "), (2, "HHHHHHHHignored"),
               (1, "HHHHHHHHworld")],
    inspectOk := true, inspectErr := "", exitCode := 0 }

/-- An exec outcome: in time, non-zero exit code, stderr captured. -/
def execFailEnv : DockerManager.ExecEnv :=
  { containerReady := true, execStartOk := true, execStartErr := "",
    durationMs := 5,
    chunks := [(1, "HHHHHHHHout"), (2, "HHHHHHHHboom")],
    inspectOk := true, inspectErr := "", exitCode := 2 }

/-- An exec outcome that does not complete within the 30s timeout. -/
def execTimeoutEnv : DockerManager.ExecEnv :=
  { containerReady := true, execStartOk := true, execStartErr := "",
    durationMs := 30000, chunks := [], inspectOk := true, inspectErr := "",
    exitCode := 0 }

/-- A request whose options carry a timeout far above the configured
maximum and a caller supplied site. -/
def bigTimeoutReq : ReqOptions :=
  { timeout := some 9999, takeScreenshots := none,
    websiteUrl := some "other.example.com" }

/-! ## Helper lemmas -/

theorem runSetupCommands_map_fst (exec : String → Except String String)
    (cmds : List String) :
    (DockerManager.runSetupCommands exec cmds).map Prod.fst = cmds := by
  induction cmds with
  | nil => rfl
  | cons c rest ih =>
    cases h : exec c <;> simp [DockerManager.runSetupCommands, h, ih]

theorem demuxGo_spec (chunks : List DockerManager.Chunk) :
    ∀ out err, DockerManager.demuxGo chunks out err
      = (out ++ DockerManager.stdoutText chunks,
         err ++ DockerManager.stderrText chunks) := by
  induction chunks with
  | nil =>
    intro out err
    simp [DockerManager.demuxGo, DockerManager.stdoutText,
          DockerManager.stderrText, String.append_empty]
  | cons cd rest ih =>
    intro out err
    obtain ⟨tag, d⟩ := cd
    by_cases h1 : tag = 1
    · subst h1
      simp [DockerManager.demuxGo, DockerManager.stdoutText,
            DockerManager.stderrText, ih, String.append_assoc]
    · by_cases h2 : tag = 2
      · subst h2
        simp [DockerManager.demuxGo, DockerManager.stdoutText,
              DockerManager.stderrText, ih, String.append_assoc]
      · simp [DockerManager.demuxGo, DockerManager.stdoutText,
              DockerManager.stderrText, h1, h2, ih, String.append_assoc]

theorem docker_shot_ok (env : DockerEnv)
    (hexec : ∀ c, ∃ s, env.exec c = Except.ok s)
    (hget : ∀ p, ∃ s, env.getFile p = Except.ok s) :
    ∃ s, ComputerUse.takeScreenshotForClaude env = Except.ok s := by
  obtain ⟨s1, h1⟩ :=
    hexec ("export DISPLAY=:99 && scrot " ++ ComputerUse.screenshotFile env.now)
  obtain ⟨d, h2⟩ := hget (ComputerUse.screenshotFile env.now)
  obtain ⟨s3, h3⟩ := hexec ("rm -f " ++ ComputerUse.screenshotFile env.now)
  refine ⟨d, ?_⟩
  unfold ComputerUse.takeScreenshotForClaude
  rw [h1, h2, h3]

theorem docker_capture_appends (env : DockerEnv) (opts : ExecOpts)
    (step : String) (trail : Trail)
    (hexec : ∀ c, ∃ s, env.exec c = Except.ok s)
    (hget : ∀ p, ∃ s, env.getFile p = Except.ok s)
    (ht : opts.takeScreenshots = true) :
    ∃ e : Screenshot,
      ComputerUse.captureScreenshot env opts step trail = trail ++ [e]
        ∧ e.step = step := by
  obtain ⟨d, hd⟩ := docker_shot_ok env hexec hget
  refine ⟨{ step := step, timestamp := env.nowIso,
            image_base64 := "data:image/png;base64," ++ d }, ?_, rfl⟩
  simp [ComputerUse.captureScreenshot, ht, hd]

theorem docker_capture_disabled (env : DockerEnv) (opts : ExecOpts)
    (step : String) (trail : Trail) (ht : opts.takeScreenshots = false) :
    ComputerUse.captureScreenshot env opts step trail = trail := by
  simp [ComputerUse.captureScreenshot, ht]

theorem pup_shot_ok (env : PuppeteerEnv)
    (hshot : ∃ s, env.shot = Except.ok s) :
    ∃ s, PuppeteerComputerUse.takeScreenshotForClaude env = Except.ok s := by
  obtain ⟨s, hs⟩ := hshot
  exact ⟨s, by unfold PuppeteerComputerUse.takeScreenshotForClaude; rw [hs]⟩

theorem pup_capture_appends (env : PuppeteerEnv) (opts : ExecOpts)
    (step : String) (trail : Trail)
    (hshot : ∃ s, env.shot = Except.ok s)
    (ht : opts.takeScreenshots = true)
    (hp : env.page = some ()) (hb : env.browser = some ()) :
    ∃ e : Screenshot,
      PuppeteerComputerUse.captureScreenshot env opts step trail = trail ++ [e]
        ∧ e.step = step := by
  obtain ⟨d, hd⟩ := pup_shot_ok env hshot
  refine ⟨{ step := step, timestamp := env.nowIso,
            image_base64 := "data:image/png;base64," ++ d }, ?_, rfl⟩
  simp [PuppeteerComputerUse.captureScreenshot, ht, hp, hb, hd]

theorem pup_capture_disabled (env : PuppeteerEnv) (opts : ExecOpts)
    (step : String) (trail : Trail) (ht : opts.takeScreenshots = false) :
    PuppeteerComputerUse.captureScreenshot env opts step trail = trail := by
  simp [PuppeteerComputerUse.captureScreenshot, ht]

theorem loopGo_step_tool (shot : Nat → Except String String)
    (toolExec : ToolUse → Trail → String × Trail) (agent : Nat → List Block)
    (fuel iteration : Nat) (messages : List Msg) (trail : Trail)
    (s : String) (tu : ToolUse)
    (hlt : iteration < maxIterations)
    (hs : shot (iteration + 1) = Except.ok s)
    (htu : findToolUse (agent (iteration + 1)) = some tu) :
    loopGo shot toolExec agent (fuel + 1) iteration messages trail
      = loopGo shot toolExec agent fuel (iteration + 1)
          (messages ++ [Msg.assistantBlocks (agent (iteration + 1)),
                        Msg.toolResult tu.id (toolExec tu trail).1])
          (toolExec tu trail).2 := by
  simp [loopGo, hlt, hs, htu]

theorem loopGo_step_done (shot : Nat → Except String String)
    (toolExec : ToolUse → Trail → String × Trail) (agent : Nat → List Block)
    (fuel iteration : Nat) (messages : List Msg) (trail : Trail) (s : String)
    (hlt : iteration < maxIterations)
    (hs : shot (iteration + 1) = Except.ok s)
    (hdone : findToolUse (agent (iteration + 1)) = none) :
    loopGo shot toolExec agent (fuel + 1) iteration messages trail
      = Except.ok (iteration + 1, messages, trail) := by
  simp [loopGo, hlt, hs, hdone]

theorem loopGo_runs_to_cap (shot : Nat → Except String String)
    (toolExec : ToolUse → Trail → String × Trail) (agent : Nat → List Block)
    (hshot : ∀ j, ∃ s, shot j = Except.ok s)
    (htool : ∀ j, ∃ tu, findToolUse (agent j) = some tu) :
    ∀ fuel iteration messages trail, iteration + fuel = maxIterations →
      ∃ ms tr, loopGo shot toolExec agent fuel iteration messages trail
          = Except.ok (maxIterations, ms, tr)
        ∧ ms.length = messages.length + 2 * fuel := by
  intro fuel
  induction fuel with
  | zero =>
    intro iteration messages trail h
    have hit : iteration = maxIterations := by omega
    subst hit
    exact ⟨messages, trail, rfl, by omega⟩
  | succ n ih =>
    intro iteration messages trail h
    have hlt : iteration < maxIterations := by omega
    obtain ⟨s, hs⟩ := hshot (iteration + 1)
    obtain ⟨tu, htu⟩ := htool (iteration + 1)
    obtain ⟨ms, tr, heq, hlen⟩ := ih (iteration + 1)
      (messages ++ [Msg.assistantBlocks (agent (iteration + 1)),
                    Msg.toolResult tu.id (toolExec tu trail).1])
      ((toolExec tu trail).2) (by omega)
    refine ⟨ms, tr, ?_, ?_⟩
    · rw [loopGo_step_tool shot toolExec agent n iteration messages trail s tu
        hlt hs htu]
      exact heq
    · simp at hlen
      omega

theorem loopGo_completes (shot : Nat → Except String String)
    (toolExec : ToolUse → Trail → String × Trail) (agent : Nat → List Block)
    (i : Nat)
    (hshot : ∀ j, ∃ s, shot j = Except.ok s)
    (htool : ∀ j, 0 < j → j < i → ∃ tu, findToolUse (agent j) = some tu)
    (hdone : findToolUse (agent i) = none) :
    ∀ fuel iteration messages trail, iteration + fuel = maxIterations →
      iteration < i → i ≤ maxIterations →
      ∃ ms tr, loopGo shot toolExec agent fuel iteration messages trail
          = Except.ok (i, ms, tr) := by
  intro fuel
  induction fuel with
  | zero =>
    intro iteration messages trail h hi hle
    exfalso
    omega
  | succ n ih =>
    intro iteration messages trail h hi hle
    have hlt : iteration < maxIterations := by omega
    obtain ⟨s, hs⟩ := hshot (iteration + 1)
    by_cases hEnd : iteration + 1 = i
    · refine ⟨messages, trail, ?_⟩
      rw [loopGo_step_done shot toolExec agent n iteration messages trail s
        hlt hs (by rw [hEnd]; exact hdone)]
      rw [hEnd]
    · obtain ⟨tu, htu⟩ := htool (iteration + 1) (by omega) (by omega)
      obtain ⟨ms, tr, heq⟩ := ih (iteration + 1)
        (messages ++ [Msg.assistantBlocks (agent (iteration + 1)),
                      Msg.toolResult tu.id (toolExec tu trail).1])
        ((toolExec tu trail).2) (by omega) (by omega) hle
      refine ⟨ms, tr, ?_⟩
      rw [loopGo_step_tool shot toolExec agent n iteration messages trail s tu
        hlt hs htu]
      exact heq

theorem runClaude_completes (shot : Nat → Except String String)
    (toolExec : ToolUse → Trail → String × Trail) (agent : Nat → List Block)
    (messages0 : List Msg) (trail0 : Trail) (i : Nat)
    (h1 : 0 < i) (h2 : i < maxIterations)
    (hshot : ∀ j, ∃ s, shot j = Except.ok s)
    (htool : ∀ j, 0 < j → j < i → ∃ tu, findToolUse (agent j) = some tu)
    (hdone : findToolUse (agent i) = none) :
    ∃ out, runClaude shot toolExec agent messages0 trail0 = Except.ok out
      ∧ out.iterations = i ∧ out.completed = true := by
  obtain ⟨ms, tr, heq⟩ := loopGo_completes shot toolExec agent i hshot htool
    hdone maxIterations 0 messages0 trail0 (by omega) h1 (by omega)
  refine ⟨{ iterations := i, completed := true, messages := ms, trail := tr },
    ?_, rfl, rfl⟩
  have hni : ¬ (maxIterations ≤ i) := by omega
  unfold runClaude
  rw [heq]
  simp [hni]

theorem runClaude_exhausts (shot : Nat → Except String String)
    (toolExec : ToolUse → Trail → String × Trail) (agent : Nat → List Block)
    (messages0 : List Msg) (trail0 : Trail)
    (hshot : ∀ j, ∃ s, shot j = Except.ok s)
    (htool : ∀ j, ∃ tu, findToolUse (agent j) = some tu) :
    runClaude shot toolExec agent messages0 trail0
      = Except.error ("Maximum iterations (" ++ toString maxIterations
          ++ ") reached")
    ∧ ∃ ms tr, loopGo shot toolExec agent maxIterations 0 messages0 trail0
        = Except.ok (maxIterations, ms, tr)
      ∧ ms.length = messages0.length + 2 * maxIterations := by
  obtain ⟨ms, tr, heq, hlen⟩ := loopGo_runs_to_cap shot toolExec agent hshot
    htool maxIterations 0 messages0 trail0 (by omega)
  refine ⟨?_, ms, tr, heq, hlen⟩
  unfold runClaude
  rw [heq]
  simp

theorem runClaude_immediate_completion (shot : Nat → Except String String)
    (toolExec : ToolUse → Trail → String × Trail) (agent : Nat → List Block)
    (messages0 : List Msg) (trail0 : Trail)
    (hs1 : ∃ s, shot 1 = Except.ok s)
    (hdone : findToolUse (agent 1) = none) :
    runClaude shot toolExec agent messages0 trail0
      = Except.ok { iterations := 1, completed := true,
                    messages := messages0, trail := trail0 } := by
  obtain ⟨s, hs⟩ := hs1
  have step : loopGo shot toolExec agent maxIterations 0 messages0 trail0
      = Except.ok (1, messages0, trail0) :=
    loopGo_step_done shot toolExec agent 19 0 messages0 trail0 s (by decide)
      hs hdone
  unfold runClaude
  rw [step]
  rfl

theorem runClaude_one_tool_then_done (shot : Nat → Except String String)
    (toolExec : ToolUse → Trail → String × Trail) (agent : Nat → List Block)
    (messages0 : List Msg) (trail0 : Trail) (tu : ToolUse)
    (hs1 : ∃ s, shot 1 = Except.ok s) (hs2 : ∃ s, shot 2 = Except.ok s)
    (htu : findToolUse (agent 1) = some tu)
    (hdone : findToolUse (agent 2) = none) :
    runClaude shot toolExec agent messages0 trail0
      = Except.ok { iterations := 2, completed := true,
                    messages := messages0
                      ++ [Msg.assistantBlocks (agent 1),
                          Msg.toolResult tu.id (toolExec tu trail0).1],
                    trail := (toolExec tu trail0).2 } := by
  obtain ⟨s1, h1⟩ := hs1
  obtain ⟨s2, h2⟩ := hs2
  have step1 : loopGo shot toolExec agent maxIterations 0 messages0 trail0
      = loopGo shot toolExec agent 19 1
          (messages0 ++ [Msg.assistantBlocks (agent 1),
                         Msg.toolResult tu.id (toolExec tu trail0).1])
          (toolExec tu trail0).2 :=
    loopGo_step_tool shot toolExec agent 19 0 messages0 trail0 s1 tu
      (by decide) h1 htu
  have step2 : loopGo shot toolExec agent 19 1
        (messages0 ++ [Msg.assistantBlocks (agent 1),
                       Msg.toolResult tu.id (toolExec tu trail0).1])
        ((toolExec tu trail0).2)
      = Except.ok (2, messages0
          ++ [Msg.assistantBlocks (agent 1),
              Msg.toolResult tu.id (toolExec tu trail0).1],
          (toolExec tu trail0).2) :=
    loopGo_step_done shot toolExec agent 18 1 _ _ s2 (by decide) h2 hdone
  unfold runClaude
  rw [step1, step2]
  rfl

/-! ## Claim C1 -/

/-- Claim C1, counterexample: with an agent that clicks for nineteen
iterations and declares completion (no tool invocation block) exactly at
iteration 20 — the iteration cap — the run does not return
`{iterations: 20, completed: true}` as the claim states: it raises the
maximum-iterations error, because the post-loop cap check
(`iteration >= maxIterations`) cannot tell completion at the cap from cap
exhaustion. -/
theorem completion_at_cap_raises_max_iterations :
    ComputerUse.runClaudeWithComputerUse okDockerEnv wopts agentDoneAtCap
        "test the site" []
      = Except.error "Maximum iterations (20) reached"
    ∧ findToolUse (agentDoneAtCap 20) = none :=
  ⟨rfl, rfl⟩

/-- Claim C1 (amended): for every iteration i with 1 ≤ i ≤ 19 — strictly
below the cap of 20 — if the agent response at iteration i contains no
tool invocation block (and the loop reaches iteration i), the run loop of
either backend exits successfully and returns
`{iterations: i, completed: true}`; at i = 20 the run instead raises the
maximum-iterations error (see the counterexample). -/
theorem completion_before_cap_succeeds
    (denv : DockerEnv) (penv : PuppeteerEnv) (opts : ExecOpts)
    (agent : Nat → List Block) (instruction : String) (trail0 : Trail)
    (i : Nat)
    (hexec : ∀ c, ∃ s, denv.exec c = Except.ok s)
    (hget : ∀ p, ∃ s, denv.getFile p = Except.ok s)
    (hpshot : ∃ s, penv.shot = Except.ok s)
    (h1 : 1 ≤ i) (h2 : i < maxIterations)
    (htool : ∀ j, 0 < j → j < i → ∃ tu, findToolUse (agent j) = some tu)
    (hdone : findToolUse (agent i) = none) :
    (∃ out, ComputerUse.runClaudeWithComputerUse denv opts agent instruction
        trail0 = Except.ok out ∧ out.iterations = i ∧ out.completed = true)
    ∧ (∃ out, PuppeteerComputerUse.runClaudeWithComputerUse penv opts agent
        instruction trail0 = Except.ok out ∧ out.iterations = i
        ∧ out.completed = true) := by
  constructor
  · exact runClaude_completes _ _ agent _ trail0 i h1 h2
      (fun _ => docker_shot_ok denv hexec hget) htool hdone
  · exact runClaude_completes _ _ agent _ trail0 i h1 h2
      (fun _ => pup_shot_ok penv hpshot) htool hdone

/-- Witness for the amended C1 theorem: completion at iteration 2. -/
theorem completion_before_cap_succeeds_witness :
    (∃ out, ComputerUse.runClaudeWithComputerUse okDockerEnv wopts
        agentClickThenDone "test the site" [] = Except.ok out
        ∧ out.iterations = 2 ∧ out.completed = true)
    ∧ (∃ out, PuppeteerComputerUse.runClaudeWithComputerUse okPupEnv wopts
        agentClickThenDone "test the site" [] = Except.ok out
        ∧ out.iterations = 2 ∧ out.completed = true) :=
  completion_before_cap_succeeds okDockerEnv okPupEnv wopts agentClickThenDone
    "test the site" [] 2
    (fun _ => ⟨"", rfl⟩) (fun _ => ⟨"IMG", rfl⟩) ⟨"IMG", rfl⟩
    (by decide) (by decide)
    (fun j hj1 hj2 => ⟨clickTu, by
      have hj : j = 1 := by omega
      subst hj
      rfl⟩)
    rfl

/-! ## Claim C2 -/

/-- Claim C2: for every agent whose responses always contain a tool
invocation, the run loop of either backend performs exactly the
configured maximum number of iterations (20) and then terminates by
raising the distinct maximum-iterations error — it never loops beyond the
cap and never reports success.  The final conjunct pins the iteration
count: the loop stops with the counter exactly at the cap, having
appended two conversation turns per iteration (40 turns after the
initial instruction turn). -/
theorem never_completing_agent_exhausts_budget
    (denv : DockerEnv) (penv : PuppeteerEnv) (opts : ExecOpts)
    (agent : Nat → List Block) (instruction : String) (trail0 : Trail)
    (hexec : ∀ c, ∃ s, denv.exec c = Except.ok s)
    (hget : ∀ p, ∃ s, denv.getFile p = Except.ok s)
    (hpshot : ∃ s, penv.shot = Except.ok s)
    (htool : ∀ j, ∃ tu, findToolUse (agent j) = some tu) :
    ComputerUse.runClaudeWithComputerUse denv opts agent instruction trail0
      = Except.error "Maximum iterations (20) reached"
    ∧ PuppeteerComputerUse.runClaudeWithComputerUse penv opts agent
        instruction trail0 = Except.error "Maximum iterations (20) reached"
    ∧ (∃ ms tr, loopGo (fun _ => ComputerUse.takeScreenshotForClaude denv)
          (ComputerUse.executeComputerUseTool denv opts) agent
          maxIterations 0
          [Msg.userText (ComputerUse.instructionPrompt opts.websiteUrl
            instruction)] trail0
        = Except.ok (maxIterations, ms, tr)
      ∧ ms.length = 1 + 2 * maxIterations) := by
  obtain ⟨e1, rest1⟩ := runClaude_exhausts
    (fun _ => ComputerUse.takeScreenshotForClaude denv)
    (ComputerUse.executeComputerUseTool denv opts) agent
    [Msg.userText (ComputerUse.instructionPrompt opts.websiteUrl instruction)]
    trail0 (fun _ => docker_shot_ok denv hexec hget) htool
  obtain ⟨e2, _⟩ := runClaude_exhausts
    (fun _ => PuppeteerComputerUse.takeScreenshotForClaude penv)
    (PuppeteerComputerUse.executeComputerUseTool penv opts) agent
    [Msg.userText (PuppeteerComputerUse.instructionPrompt opts.websiteUrl
      instruction)]
    trail0 (fun _ => pup_shot_ok penv hpshot) htool
  refine ⟨e1, e2, ?_⟩
  obtain ⟨ms, tr, hms, hlen⟩ := rest1
  refine ⟨ms, tr, hms, ?_⟩
  simpa using hlen

/-- Witness for the C2 theorem: a stub agent that always clicks. -/
theorem never_completing_agent_exhausts_budget_witness :
    ComputerUse.runClaudeWithComputerUse okDockerEnv wopts agentNeverDone
      "test the site" [] = Except.error "Maximum iterations (20) reached"
    ∧ PuppeteerComputerUse.runClaudeWithComputerUse okPupEnv wopts
        agentNeverDone "test the site" []
      = Except.error "Maximum iterations (20) reached"
    ∧ (∃ ms tr, loopGo (fun _ => ComputerUse.takeScreenshotForClaude okDockerEnv)
          (ComputerUse.executeComputerUseTool okDockerEnv wopts) agentNeverDone
          maxIterations 0
          [Msg.userText (ComputerUse.instructionPrompt wopts.websiteUrl
            "test the site")] []
        = Except.ok (maxIterations, ms, tr)
      ∧ ms.length = 1 + 2 * maxIterations) :=
  never_completing_agent_exhausts_budget okDockerEnv okPupEnv wopts
    agentNeverDone "test the site" []
    (fun _ => ⟨"", rfl⟩) (fun _ => ⟨"IMG", rfl⟩) ⟨"IMG", rfl⟩
    (fun _ => ⟨clickTu, rfl⟩)

/-! ## Claim C3 -/

/-- Claim C3, counterexample: when `browser.close()` fails, the Puppeteer
backend teardown leaves the browser handle set — after teardown the
internal handle is not null, refuting the claimed idempotence shape
(handle null after every teardown). -/
theorem browser_close_failure_leaves_handle :
    (puppeteerCleanup false { browser := some (), page := some () }).1.browser
      = some () := rfl

/-- Claim C3 (amended): backend teardown is invoked exactly once on every
exit path — Completed, Failed, and loss of the external timeout race.
Container teardown always nulls the handle (regardless of stop/remove
failures) and a further call is a no-op that attempts no container
operation; browser teardown never throws, nulls the handle when the
close succeeds, and is a no-op once the handle is null — but after a
failed close the browser handle is retained (see the counterexample). -/
theorem teardown_once_per_exit_path (ep : RunExit)
    (stopOk removeOk closeOk : Bool) (container : Option String)
    (st : BrowserState) :
    (runTestTeardown ep stopOk removeOk container).2.count
        CleanupEv.cleanupCall = 1
    ∧ (runTestTeardown ep stopOk removeOk container).1 = none
    ∧ dockerCleanup stopOk removeOk
        (runTestTeardown ep stopOk removeOk container).1
      = (none, [CleanupEv.cleanupCall])
    ∧ (executeTeardown ep closeOk st).2.count CleanupEv.cleanupCall = 1
    ∧ (closeOk = true → (executeTeardown ep closeOk st).1.browser = none)
    ∧ (st.browser = none →
        executeTeardown ep closeOk st = (st, [CleanupEv.cleanupCall])) := by
  refine ⟨?_, ?_, ?_, ?_, ?_, ?_⟩
  · cases ep <;> cases container <;> rfl
  · cases ep <;> cases container <;> rfl
  · cases ep <;> cases container <;> rfl
  · cases ep <;> cases hb : st.browser <;> cases closeOk <;>
      simp [executeTeardown, puppeteerCleanup, hb] <;> decide
  · intro hc
    subst hc
    cases ep <;> cases hb : st.browser <;>
      simp [executeTeardown, puppeteerCleanup, hb]
  · intro hb
    cases ep <;> simp [executeTeardown, puppeteerCleanup, hb]

/-- Witness for the amended C3 theorem: timeout-race exit with failing
stop and remove, a live container, and an already-closed browser. -/
theorem teardown_once_per_exit_path_witness :
    (runTestTeardown RunExit.timeoutRaceLost false false
        (some "computer-use-test-w")).2.count CleanupEv.cleanupCall = 1
    ∧ (runTestTeardown RunExit.timeoutRaceLost false false
        (some "computer-use-test-w")).1 = none
    ∧ (executeTeardown RunExit.timeoutRaceLost true
        { browser := none, page := none }).1.browser = none
    ∧ executeTeardown RunExit.timeoutRaceLost true
        { browser := none, page := none }
      = ({ browser := none, page := none }, [CleanupEv.cleanupCall]) := by
  obtain ⟨c1, c2, _, _, c5, c6⟩ := teardown_once_per_exit_path
    RunExit.timeoutRaceLost false false true (some "computer-use-test-w")
    { browser := none, page := none }
  exact ⟨c1, c2, c5 rfl, c6 rfl⟩

/-! ## Claim C4 -/

/-- Claim C4: for every tool invocation dispatched by the loop — including
one whose tool name or action name is unrecognised, and one whose
underlying actuation fails — `executeComputerUseTool` (either backend)
returns a textual result of the form `Error: ...` on failure and never
propagates an exception (its Lean type is total: the catch absorbs every
dispatch error), and the loop proceeds to the next iteration with that
text as the paired tool result (final conjunct). -/
theorem tool_failures_become_text_results
    (denv : DockerEnv) (penv : PuppeteerEnv) (opts : ExecOpts)
    (tu : ToolUse) (trail : Trail) :
    (∀ e tr, ComputerUse.toolDispatch denv opts tu trail
        = (Except.error e, tr) →
      ComputerUse.executeComputerUseTool denv opts tu trail
        = ("Error: " ++ e, tr))
    ∧ (∀ e tr, PuppeteerComputerUse.toolDispatch penv opts tu trail
        = (Except.error e, tr) →
      PuppeteerComputerUse.executeComputerUseTool penv opts tu trail
        = ("Error: " ++ e, tr))
    ∧ (tu.name ≠ "computer" → tu.name ≠ "bash" → tu.name ≠ "text_editor" →
      ComputerUse.executeComputerUseTool denv opts tu trail
        = ("Error: " ++ ("Unknown tool: " ++ tu.name), trail))
    ∧ (tu.name ≠ "computer" →
      PuppeteerComputerUse.executeComputerUseTool penv opts tu trail
        = ("Error: " ++ ("Unknown tool: " ++ tu.name), trail))
    ∧ (tu.name = "computer" →
       tu.input.action ≠ "screenshot" → tu.input.action ≠ "click" →
       tu.input.action ≠ "type" → tu.input.action ≠ "key" →
       tu.input.action ≠ "scroll" →
      ComputerUse.executeComputerUseTool denv opts tu trail
        = ("Error: " ++ ("Unknown computer action: " ++ tu.input.action),
           trail)
      ∧ PuppeteerComputerUse.executeComputerUseTool penv opts tu trail
        = ("Error: " ++ ("Unknown computer action: " ++ tu.input.action),
           trail))
    ∧ (∀ shot agent fuel it messages s,
        it < maxIterations → shot (it + 1) = Except.ok s →
        findToolUse (agent (it + 1)) = some tu →
        loopGo shot (ComputerUse.executeComputerUseTool denv opts) agent
            (fuel + 1) it messages trail
          = loopGo shot (ComputerUse.executeComputerUseTool denv opts) agent
              fuel (it + 1)
              (messages ++ [Msg.assistantBlocks (agent (it + 1)),
                Msg.toolResult tu.id
                  (ComputerUse.executeComputerUseTool denv opts tu trail).1])
              (ComputerUse.executeComputerUseTool denv opts tu trail).2) := by
  refine ⟨?_, ?_, ?_, ?_, ?_, ?_⟩
  · intro e tr h
    unfold ComputerUse.executeComputerUseTool
    rw [h]
  · intro e tr h
    unfold PuppeteerComputerUse.executeComputerUseTool
    rw [h]
  · intro h1 h2 h3
    simp [ComputerUse.executeComputerUseTool, ComputerUse.toolDispatch,
      h1, h2, h3]
  · intro h1
    simp [PuppeteerComputerUse.executeComputerUseTool,
      PuppeteerComputerUse.toolDispatch, h1]
  · intro hc a1 a2 a3 a4 a5
    constructor
    · simp [ComputerUse.executeComputerUseTool, ComputerUse.toolDispatch,
        ComputerUse.handleComputerAction, hc, a1, a2, a3, a4, a5]
    · simp [PuppeteerComputerUse.executeComputerUseTool,
        PuppeteerComputerUse.toolDispatch,
        PuppeteerComputerUse.handleComputerAction, hc, a1, a2, a3, a4, a5]
  · intro shot agent fuel it messages s hlt hs htu
    exact loopGo_step_tool shot (ComputerUse.executeComputerUseTool denv opts)
      agent fuel it messages trail s tu hlt hs htu

/-- Witness for the C4 theorem: an unknown tool name and an unknown
computer action, each turned into a textual error result. -/
theorem tool_failures_become_text_results_witness :
    ComputerUse.executeComputerUseTool okDockerEnv wopts
        { id := "toolu_x", name := "frobnicate", input := {} } []
      = ("Error: " ++ ("Unknown tool: " ++ "frobnicate"), [])
    ∧ PuppeteerComputerUse.executeComputerUseTool okPupEnv wopts
        { id := "toolu_x", name := "frobnicate", input := {} } []
      = ("Error: " ++ ("Unknown tool: " ++ "frobnicate"), [])
    ∧ ComputerUse.executeComputerUseTool okDockerEnv wopts
        { id := "toolu_y", name := "computer", input := { action := "hover" } }
        []
      = ("Error: " ++ ("Unknown computer action: " ++ "hover"), []) := by
  obtain ⟨_, _, c3, c4, _, _⟩ := tool_failures_become_text_results okDockerEnv
    okPupEnv wopts { id := "toolu_x", name := "frobnicate", input := {} } []
  obtain ⟨_, _, _, _, c5, _⟩ := tool_failures_become_text_results okDockerEnv
    okPupEnv wopts
    { id := "toolu_y", name := "computer", input := { action := "hover" } } []
  exact ⟨c3 (by decide) (by decide) (by decide), c4 (by decide),
    (c5 rfl (by decide) (by decide) (by decide) (by decide) (by decide)).1⟩

/-! ## Claim C5 -/

/-- Claim C5, counterexample: with container creation and start
succeeding and every provisioning command succeeding except the final
display readiness check (xdpyinfo), initialization still succeeds — the
readiness check failure is tolerated like every other step, refuting the
claim that the final readiness check is load-bearing. -/
theorem readiness_failure_tolerated :
    (DockerManager.initContainer badDisplayEnv).toOption.isSome = true
    ∧ (DockerManager.runSetupCommands badDisplayEnv.exec
        DockerManager.setupCommands).getLast?
      = some (DockerManager.readinessCmd, false) :=
  ⟨rfl, rfl⟩

/-- Claim C5 (amended): no provisioning step is load-bearing, including
the final display readiness check — every step failure is tolerated and
the sequence still attempts every step in order; `initialize()` fails
(with the initialization error) only when environment creation or start
fails. -/
theorem provisioning_tolerates_all_step_failures
    (env env2 : DockerManager.InitEnv)
    (hc : env.createOk = true) (hs : env.startOk = true)
    (hc2 : env2.createOk = false) :
    DockerManager.initContainer env
      = Except.ok (DockerManager.runSetupCommands env.exec
          DockerManager.setupCommands)
    ∧ (DockerManager.runSetupCommands env.exec
        DockerManager.setupCommands).map Prod.fst
      = DockerManager.setupCommands
    ∧ DockerManager.initContainer env2
      = Except.error ("Failed to initialize Docker container: "
          ++ env2.createErr) := by
  refine ⟨?_, runSetupCommands_map_fst env.exec DockerManager.setupCommands,
    ?_⟩
  · simp [DockerManager.initContainer, hc, hs]
  · simp [DockerManager.initContainer, hc2]

/-- Witness for the amended C5 theorem. -/
theorem provisioning_tolerates_all_step_failures_witness :
    DockerManager.initContainer badDisplayEnv
      = Except.ok (DockerManager.runSetupCommands badDisplayEnv.exec
          DockerManager.setupCommands)
    ∧ (DockerManager.runSetupCommands badDisplayEnv.exec
        DockerManager.setupCommands).map Prod.fst
      = DockerManager.setupCommands
    ∧ DockerManager.initContainer noCreateEnv
      = Except.error ("Failed to initialize Docker container: "
          ++ "no docker daemon") :=
  provisioning_tolerates_all_step_failures badDisplayEnv noCreateEnv
    rfl rfl rfl

/-! ## Claim C6 -/

/-- Claim C6, counterexample: a click at (9999, 9999) — far outside the
configured 1280x720 display — is actuated and acknowledged, not rejected:
the adapter returns the success text for it. -/
theorem out_of_display_click_actuated :
    (ComputerUse.executeComputerUseTool okDockerEnv wopts
        { id := "toolu_c", name := "computer",
          input := { action := "click", coordinate := [9999, 9999] } }
        []).1
      = "Clicked at (9999, 9999)"
    ∧ display.width < 9999 ∧ display.height < 9999 :=
  ⟨rfl, by decide, by decide⟩

/-- Claim C6 (amended): neither backend adapter validates click
coordinates against the display dimensions: for every integer coordinate
pair the Docker adapter hands the actuation layer the xdotool command
built from the raw coordinates (observable through an echoing actuator),
the Puppeteer adapter calls `page.mouse.click` with the raw coordinates,
and with a succeeding actuator both acknowledge the click. -/
theorem click_coordinates_never_validated (x y : Int) (opts : ExecOpts)
    (trail : Trail) :
    ComputerUse.handleComputerAction echoDockerEnv opts
        { action := "click", coordinate := [x, y] } trail
      = (Except.error (ComputerUse.clickCmd x y), trail)
    ∧ ComputerUse.clickCmd x y
      = "export DISPLAY=:99 && xdotool mousemove " ++ toString x ++ " "
          ++ toString y ++ " click 1"
    ∧ ComputerUse.handleComputerAction okDockerEnv opts
        { action := "click", coordinate := [x, y] } trail
      = (Except.ok ("Clicked at (" ++ toString x ++ ", " ++ toString y
          ++ ")"), trail)
    ∧ PuppeteerComputerUse.handleComputerAction echoPupEnv opts
        { action := "click", coordinate := [x, y] } trail
      = (Except.error ("click(" ++ toString x ++ ", " ++ toString y ++ ")"),
         trail)
    ∧ PuppeteerComputerUse.handleComputerAction okPupEnv opts
        { action := "click", coordinate := [x, y] } trail
      = (Except.ok ("Clicked at (" ++ toString x ++ ", " ++ toString y
          ++ ")"), trail) :=
  ⟨rfl, rfl, rfl, rfl, rfl⟩

/-! ## Claim C7 -/

/-- Claim C7, counterexample: on the Puppeteer backend, a run in which
the agent completes on iteration 1 with screenshot capture enabled
produces a trail whose entries are in the order `Navigated to <site>`
then `Initial state` — not `Initial state` first as the claim states for
both backends. -/
theorem puppeteer_trail_order_reversed :
    (PuppeteerComputerUse.execute okPupEnv wopts agentImmediatelyDone
        "take a screenshot of the homepage").toOption.map
      (fun o => o.trail.map Screenshot.step)
      = some ["Navigated to app.giftround.com", "Initial state"] := rfl

/-- Claim C7 (amended): for a run in which the agent completes on
iteration 1 with no tool call, the screenshot trail has exactly 2 entries
when capture is enabled and 0 when disabled, on both backends; the order
is `Initial state` then `Navigated to <site>` on the Docker backend but
`Navigated to <site>` then `Initial state` on the Puppeteer backend
(whose `execute` navigates before taking the initial-state capture). -/
theorem screenshot_trail_two_entries (denv : DockerEnv) (penv : PuppeteerEnv)
    (agent : Nat → List Block) (instruction url : String)
    (hexec : ∀ c, ∃ s, denv.exec c = Except.ok s)
    (hget : ∀ p, ∃ s, denv.getFile p = Except.ok s)
    (hpshot : ∃ s, penv.shot = Except.ok s)
    (hb : penv.browser = some ()) (hp : penv.page = some ())
    (hlaunch : penv.launchOk = true) (hgoto : penv.gotoOk = true)
    (hdone : findToolUse (agent 1) = none) :
    (∃ out, ComputerUse.execute denv (optsOn url) agent instruction
        = Except.ok out
      ∧ out.trail.map Screenshot.step
          = ["Initial state", "Navigated to " ++ url]
      ∧ out.iterations = 1)
    ∧ (∃ out, PuppeteerComputerUse.execute penv (optsOn url) agent
        instruction = Except.ok out
      ∧ out.trail.map Screenshot.step
          = ["Navigated to " ++ url, "Initial state"]
      ∧ out.iterations = 1)
    ∧ (∃ out, ComputerUse.execute denv (optsOff url) agent instruction
        = Except.ok out ∧ out.trail = [])
    ∧ (∃ out, PuppeteerComputerUse.execute penv (optsOff url) agent
        instruction = Except.ok out ∧ out.trail = []) := by
  refine ⟨?_, ?_, ?_, ?_⟩
  · obtain ⟨snav, hnav⟩ :=
      hexec (ComputerUse.navCommand (optsOn url).websiteUrl)
    obtain ⟨e1, he1, hs1⟩ := docker_capture_appends denv (optsOn url)
      "Initial state" [] hexec hget rfl
    obtain ⟨e2, he2, hs2⟩ := docker_capture_appends denv (optsOn url)
      ("Navigated to " ++ url) ([] ++ [e1]) hexec hget rfl
    have hred : ComputerUse.execute denv (optsOn url) agent instruction
        = ComputerUse.runClaudeWithComputerUse denv (optsOn url) agent
            instruction
            (ComputerUse.captureScreenshot denv (optsOn url)
              ("Navigated to " ++ (optsOn url).websiteUrl)
              (ComputerUse.captureScreenshot denv (optsOn url)
                "Initial state" [])) := by
      unfold ComputerUse.execute
      rw [hnav]
    rw [hred]
    rw [show ("Navigated to " ++ (optsOn url).websiteUrl)
      = ("Navigated to " ++ url) from rfl]
    rw [he1, he2]
    unfold ComputerUse.runClaudeWithComputerUse
    rw [runClaude_immediate_completion _ _ agent _ _
      (docker_shot_ok denv hexec hget) hdone]
    refine ⟨_, rfl, ?_, rfl⟩
    simp [hs1, hs2]
  · obtain ⟨f1, hf1, hfs1⟩ := pup_capture_appends penv (optsOn url)
      ("Navigated to " ++ url) [] hpshot rfl hp hb
    obtain ⟨f2, hf2, hfs2⟩ := pup_capture_appends penv (optsOn url)
      "Initial state" ([] ++ [f1]) hpshot rfl hp hb
    have hred : PuppeteerComputerUse.execute penv (optsOn url) agent
        instruction
        = PuppeteerComputerUse.runClaudeWithComputerUse penv (optsOn url)
            agent instruction
            (PuppeteerComputerUse.captureScreenshot penv (optsOn url)
              "Initial state"
              (PuppeteerComputerUse.captureScreenshot penv (optsOn url)
                ("Navigated to " ++ (optsOn url).websiteUrl) [])) := by
      unfold PuppeteerComputerUse.execute
      rw [hlaunch, hgoto]
      rfl
    rw [hred]
    rw [show ("Navigated to " ++ (optsOn url).websiteUrl)
      = ("Navigated to " ++ url) from rfl]
    rw [hf1, hf2]
    unfold PuppeteerComputerUse.runClaudeWithComputerUse
    rw [runClaude_immediate_completion _ _ agent _ _
      (pup_shot_ok penv hpshot) hdone]
    refine ⟨_, rfl, ?_, rfl⟩
    simp [hfs1, hfs2]
  · obtain ⟨snav, hnav⟩ :=
      hexec (ComputerUse.navCommand (optsOff url).websiteUrl)
    have hred : ComputerUse.execute denv (optsOff url) agent instruction
        = ComputerUse.runClaudeWithComputerUse denv (optsOff url) agent
            instruction
            (ComputerUse.captureScreenshot denv (optsOff url)
              ("Navigated to " ++ (optsOff url).websiteUrl)
              (ComputerUse.captureScreenshot denv (optsOff url)
                "Initial state" [])) := by
      unfold ComputerUse.execute
      rw [hnav]
    rw [hred, docker_capture_disabled denv (optsOff url) "Initial state" []
        rfl,
      docker_capture_disabled denv (optsOff url)
        ("Navigated to " ++ (optsOff url).websiteUrl) [] rfl]
    unfold ComputerUse.runClaudeWithComputerUse
    rw [runClaude_immediate_completion _ _ agent _ _
      (docker_shot_ok denv hexec hget) hdone]
    exact ⟨_, rfl, rfl⟩
  · have hred : PuppeteerComputerUse.execute penv (optsOff url) agent
        instruction
        = PuppeteerComputerUse.runClaudeWithComputerUse penv (optsOff url)
            agent instruction
            (PuppeteerComputerUse.captureScreenshot penv (optsOff url)
              "Initial state"
              (PuppeteerComputerUse.captureScreenshot penv (optsOff url)
                ("Navigated to " ++ (optsOff url).websiteUrl) [])) := by
      unfold PuppeteerComputerUse.execute
      rw [hlaunch, hgoto]
      rfl
    rw [hred,
      pup_capture_disabled penv (optsOff url)
        ("Navigated to " ++ (optsOff url).websiteUrl) [] rfl,
      pup_capture_disabled penv (optsOff url) "Initial state" [] rfl]
    unfold PuppeteerComputerUse.runClaudeWithComputerUse
    rw [runClaude_immediate_completion _ _ agent _ _
      (pup_shot_ok penv hpshot) hdone]
    exact ⟨_, rfl, rfl⟩

/-- Witness for the amended C7 theorem. -/
theorem screenshot_trail_two_entries_witness :
    (∃ out, ComputerUse.execute okDockerEnv (optsOn "app.giftround.com")
        agentImmediatelyDone "take a screenshot of the homepage"
        = Except.ok out
      ∧ out.trail.map Screenshot.step
          = ["Initial state", "Navigated to " ++ "app.giftround.com"]
      ∧ out.iterations = 1)
    ∧ (∃ out, PuppeteerComputerUse.execute okPupEnv
        (optsOn "app.giftround.com") agentImmediatelyDone
        "take a screenshot of the homepage" = Except.ok out
      ∧ out.trail.map Screenshot.step
          = ["Navigated to " ++ "app.giftround.com", "Initial state"]
      ∧ out.iterations = 1)
    ∧ (∃ out, ComputerUse.execute okDockerEnv (optsOff "app.giftround.com")
        agentImmediatelyDone "take a screenshot of the homepage"
        = Except.ok out ∧ out.trail = []) := by
  obtain ⟨cd, cp, cdd, _⟩ := screenshot_trail_two_entries okDockerEnv okPupEnv
    agentImmediatelyDone "take a screenshot of the homepage"
    "app.giftround.com"
    (fun _ => ⟨"", rfl⟩) (fun _ => ⟨"IMG", rfl⟩) ⟨"IMG", rfl⟩
    rfl rfl rfl rfl rfl
  exact ⟨cd, cp, cdd⟩

/-! ## Claim C8 -/

/-- Claim C8, counterexample: in the scenario where the agent clicks on
iteration 1 and completes with no tool call on iteration 2, the persisted
conversation contains exactly 3 turns, not 4 — the agents final
completion turn is never appended to the conversation. -/
theorem conversation_has_three_turns :
    (ComputerUse.runClaudeWithComputerUse okDockerEnv wopts agentClickThenDone
        "test the site" []).toOption.map (fun o => o.messages.length)
      = some 3 := rfl

/-- Claim C8 (amended): in the scenario where the agent requests a tool
call on iteration 1 and responds with no tool call on iteration 2, the
persisted conversation of either backend contains exactly 3 turns —
instruction, agent turn with the tool call, tool-result turn; the
completion turn is not appended — and the tool-invocation turn is
immediately followed by a user turn whose tool-result echoes that
invocations identifier (`tu.id`). -/
theorem conversation_pairing_three_turns
    (denv : DockerEnv) (penv : PuppeteerEnv) (opts : ExecOpts)
    (agent : Nat → List Block) (instruction : String) (tu : ToolUse)
    (hexec : ∀ c, ∃ s, denv.exec c = Except.ok s)
    (hget : ∀ p, ∃ s, denv.getFile p = Except.ok s)
    (hpshot : ∃ s, penv.shot = Except.ok s)
    (htu : findToolUse (agent 1) = some tu)
    (hdone : findToolUse (agent 2) = none) :
    (∃ out, ComputerUse.runClaudeWithComputerUse denv opts agent instruction
        [] = Except.ok out
      ∧ out.messages
          = [Msg.userText (ComputerUse.instructionPrompt opts.websiteUrl
               instruction),
             Msg.assistantBlocks (agent 1),
             Msg.toolResult tu.id
               (ComputerUse.executeComputerUseTool denv opts tu []).1]
      ∧ out.messages.length = 3 ∧ out.iterations = 2)
    ∧ (∃ out, PuppeteerComputerUse.runClaudeWithComputerUse penv opts agent
        instruction [] = Except.ok out
      ∧ out.messages
          = [Msg.userText (PuppeteerComputerUse.instructionPrompt
               opts.websiteUrl instruction),
             Msg.assistantBlocks (agent 1),
             Msg.toolResult tu.id
               (PuppeteerComputerUse.executeComputerUseTool penv opts tu
                 []).1]
      ∧ out.messages.length = 3 ∧ out.iterations = 2) := by
  have hd := docker_shot_ok denv hexec hget
  have hps := pup_shot_ok penv hpshot
  constructor
  · unfold ComputerUse.runClaudeWithComputerUse
    rw [runClaude_one_tool_then_done _ _ agent _ [] tu hd hd htu hdone]
    exact ⟨_, rfl, rfl, rfl, rfl⟩
  · unfold PuppeteerComputerUse.runClaudeWithComputerUse
    rw [runClaude_one_tool_then_done _ _ agent _ [] tu hps hps htu hdone]
    exact ⟨_, rfl, rfl, rfl, rfl⟩

/-- Witness for the amended C8 theorem: the click-then-complete agent. -/
theorem conversation_pairing_three_turns_witness :
    (∃ out, ComputerUse.runClaudeWithComputerUse okDockerEnv wopts
        agentClickThenDone "test the site" [] = Except.ok out
      ∧ out.messages
          = [Msg.userText (ComputerUse.instructionPrompt wopts.websiteUrl
               "test the site"),
             Msg.assistantBlocks (agentClickThenDone 1),
             Msg.toolResult clickTu.id
               (ComputerUse.executeComputerUseTool okDockerEnv wopts clickTu
                 []).1]
      ∧ out.messages.length = 3 ∧ out.iterations = 2)
    ∧ (∃ out, PuppeteerComputerUse.runClaudeWithComputerUse okPupEnv wopts
        agentClickThenDone "test the site" [] = Except.ok out
      ∧ out.messages
          = [Msg.userText (PuppeteerComputerUse.instructionPrompt
               wopts.websiteUrl "test the site"),
             Msg.assistantBlocks (agentClickThenDone 1),
             Msg.toolResult clickTu.id
               (PuppeteerComputerUse.executeComputerUseTool okPupEnv wopts
                 clickTu []).1]
      ∧ out.messages.length = 3 ∧ out.iterations = 2) :=
  conversation_pairing_three_turns okDockerEnv okPupEnv wopts
    agentClickThenDone "test the site" clickTu
    (fun _ => ⟨"", rfl⟩) (fun _ => ⟨"IMG", rfl⟩) ⟨"IMG", rfl⟩ rfl rfl

/-! ## Claim C9 -/

/-- Claim C9: for every command run through the container manager
`execute`: exit code 0 resolves with the demultiplexed stdout text (stdout
and stderr frames separated by the leading framing byte, 8-byte header
stripped), trimmed; a non-zero exit code rejects with an error carrying
that exit status and the captured error text (stderr, or stdout when
stderr is empty); and a command not completing within the 30 second
per-call timeout rejects with the timeout error. -/
theorem docker_execute_behaviour (env : DockerManager.ExecEnv)
    (command : String)
    (hready : env.containerReady = true) (hstart : env.execStartOk = true)
    (hinspect : env.inspectOk = true) :
    DockerManager.demux env.chunks
      = (DockerManager.stdoutText env.chunks,
         DockerManager.stderrText env.chunks)
    ∧ (env.durationMs < DockerManager.execTimeoutMs → env.exitCode = 0 →
        DockerManager.execute env command
          = Except.ok (DockerManager.stdoutText env.chunks).trim)
    ∧ (env.durationMs < DockerManager.execTimeoutMs → env.exitCode ≠ 0 →
        DockerManager.execute env command
          = Except.error ("Command failed with exit code "
              ++ toString env.exitCode ++ ": "
              ++ (if DockerManager.stderrText env.chunks = ""
                  then DockerManager.stdoutText env.chunks
                  else DockerManager.stderrText env.chunks)))
    ∧ (DockerManager.execTimeoutMs ≤ env.durationMs →
        DockerManager.execute env command
          = Except.error "Command execution timeout") := by
  have hdemux : DockerManager.demux env.chunks
      = (DockerManager.stdoutText env.chunks,
         DockerManager.stderrText env.chunks) := by
    unfold DockerManager.demux
    rw [demuxGo_spec]
    simp
  refine ⟨hdemux, ?_, ?_, ?_⟩
  · intro hdur hexit
    have hnd : ¬ (DockerManager.execTimeoutMs ≤ env.durationMs) := by omega
    simp [DockerManager.execute, hready, hstart, hinspect, hnd, hexit,
      hdemux]
  · intro hdur hexit
    have hnd : ¬ (DockerManager.execTimeoutMs ≤ env.durationMs) := by omega
    simp [DockerManager.execute, hready, hstart, hinspect, hnd, hexit,
      hdemux]
  · intro hdur
    simp [DockerManager.execute, hready, hstart, hinspect, hdur]

/-- Witness for the C9 theorem: the three outcomes at concrete streams
(the success payload is stated through the stdout characterisation, since
`String.trim` does not reduce definitionally). -/
theorem docker_execute_behaviour_witness :
    DockerManager.execute execOkEnv "ls /tmp"
      = Except.ok ((DockerManager.stdoutText execOkEnv.chunks).trim)
    ∧ DockerManager.execute execFailEnv "ls /nope"
      = Except.error "Command failed with exit code 2: boom"
    ∧ DockerManager.execute execTimeoutEnv "sleep 60"
      = Except.error "Command execution timeout" := by
  obtain ⟨_, c2, _, _⟩ := docker_execute_behaviour execOkEnv "ls /tmp"
    rfl rfl rfl
  obtain ⟨_, _, c3, _⟩ := docker_execute_behaviour execFailEnv "ls /nope"
    rfl rfl rfl
  obtain ⟨_, _, _, c4⟩ := docker_execute_behaviour execTimeoutEnv "sleep 60"
    rfl rfl rfl
  refine ⟨c2 (by decide) rfl, ?_, c4 (by decide)⟩
  have h := c3 (by decide) (by decide)
  have e : (if DockerManager.stderrText execFailEnv.chunks = ""
      then DockerManager.stdoutText execFailEnv.chunks
      else DockerManager.stderrText execFailEnv.chunks) = "boom" := by decide
  rw [e] at h
  have e2 : ("Command failed with exit code " ++ toString execFailEnv.exitCode
      ++ ": " ++ "boom") = "Command failed with exit code 2: boom" := by
    decide
  rw [e2] at h
  exact h

/-! ## Claim C10 -/

/-- Claim C10: for every request whose options supply a timeout value,
the wall-clock deadline used in the handler `Promise.race` equals the raw
caller-supplied timeout, not the value clamped to `MAX_TEST_DURATION`:
the trailing spread of the callers options overrides the clamped field,
so a caller can set a deadline exceeding the configured maximum, and can
likewise override `websiteUrl`. -/
theorem caller_timeout_overrides_clamp (options : ReqOptions) (t : Nat)
    (u : String) (ht : options.timeout = some t) :
    (mergeTestOptions options).timeout = t
    ∧ raceDeadlineMs options = t * 1000
    ∧ (MAX_TEST_DURATION < t →
        MAX_TEST_DURATION * 1000 < raceDeadlineMs options)
    ∧ (options.websiteUrl = some u →
        (mergeTestOptions options).websiteUrl = u) := by
  have hm : (mergeTestOptions options).timeout = t := by
    simp [mergeTestOptions, ht]
  refine ⟨hm, ?_, ?_, ?_⟩
  · simp [raceDeadlineMs, hm]
  · intro hgt
    have : raceDeadlineMs options = t * 1000 := by simp [raceDeadlineMs, hm]
    rw [this]
    omega
  · intro hu
    simp [mergeTestOptions, hu]

/-- Witness for the C10 theorem: timeout 9999 far above the 300 second
maximum, and a caller-supplied site, both taking effect. -/
theorem caller_timeout_overrides_clamp_witness :
    (mergeTestOptions bigTimeoutReq).timeout = 9999
    ∧ raceDeadlineMs bigTimeoutReq = 9999000
    ∧ MAX_TEST_DURATION * 1000 < raceDeadlineMs bigTimeoutReq
    ∧ (mergeTestOptions bigTimeoutReq).websiteUrl = "other.example.com" := by
  obtain ⟨c1, c2, c3, c4⟩ := caller_timeout_overrides_clamp bigTimeoutReq
    9999 "other.example.com" rfl
  exact ⟨c1, by rw [c2], c3 (by decide), c4 rfl⟩

end CUA
